import Mathlib

/-!
Verification of the PropertyPulse pricing logic (src/app.py).

The repository is a single Streamlit page. Its reproducible logic is the
price-estimation and derived-metrics computation: feature-vector
construction and prediction (app.py lines 236-251 and 51-63), the ROI
projection block (lines 262-294), the seeded environmental metrics
(lines 296-331), currency formatting (lines 65-70) and artifact loading
(lines 31-48). Numbers are embedded as exact rationals; fallible Python
steps become `Except`; the externally supplied regression model is an
abstract function; numpy and the filesystem are external libraries whose
relevant behaviour is modelled where noted.
-/

namespace PropertyPulse

/-- Python `round(x, 2)` on the values arising here, modelled as
floor of `100 x + 1/2` divided by 100 (Python uses round-half-to-even on
floats; no half-way case occurs in any statement below). -/
def round2 (q : ℚ) : ℚ := (Int.floor (q * 100 + 1 / 2) : ℚ) / 100

/-- Failures of the feature-vector block: numpy raises `IndexError` on an
out-of-range item assignment, and `list.index` raises `ValueError` (the
spec calls it `UnknownLocationError`) when the location is absent. -/
inductive BuildErr where
  | indexError
  | unknownLocation
deriving DecidableEq, Repr

/-- numpy item assignment `x[i] = a` (app.py lines 239-241, 245):
returns the updated vector, or `IndexError` when `i` is out of range. -/
def setSlot (v : List ℚ) (i : Nat) (a : ℚ) : Except BuildErr (List ℚ) :=
  if i < v.length then .ok (v.set i a) else .error .indexError

/-- Python `columns.index(location)` (app.py line 244 and line 57):
first index of `location`, or a `ValueError` when it is not a member. -/
def indexOfCol (columns : List String) (location : String) : Except BuildErr Nat :=
  if location ∈ columns then .ok (columns.indexOf location) else .error .unknownLocation

/-- Feature-vector construction, app.py lines 238-245 (duplicated at
lines 53-58): `x = np.zeros(len(columns))`, `x[0] = area`,
`x[1] = bathrooms`, `x[2] = bedrooms`, `x[columns.index(location)] = 1`. -/
def buildFeatureVector (columns : List String) (area bathrooms bedrooms : ℚ)
    (location : String) : Except BuildErr (List ℚ) := do
  let x0 := List.replicate columns.length (0 : ℚ)
  let x1 ← setSlot x0 0 area
  let x2 ← setSlot x1 1 bathrooms
  let x3 ← setSlot x2 2 bedrooms
  let locIndex ← indexOfCol columns location
  setSlot x3 locIndex 1

/-- The pre-trained regression model is an external artifact; it is
modelled as an abstract total map from feature vectors to either a
predicted price or a prediction failure (`model.predict` can raise). -/
def Model : Type := List ℚ → Except String ℚ

/-- Failures of a prediction request. -/
inductive PredictErr where
  | build (e : BuildErr)
  | predict (msg : String)
deriving DecidableEq, Repr

/-- The two derived amounts of app.py lines 248-251. -/
structure PricePrediction where
  totalPrice : ℚ
  pricePerArea : ℚ
deriving DecidableEq, Repr

/-- Prediction path of the predict-button handler, app.py lines 238-251:
build the feature vector, run the model, divide by the area. -/
def predictPrice (model : Model) (columns : List String) (area bathrooms bedrooms : ℚ)
    (location : String) : Except PredictErr PricePrediction :=
  match buildFeatureVector columns area bathrooms bedrooms location with
  | .error e => .error (.build e)
  | .ok x =>
    match model x with
    | .error msg => .error (.predict msg)
    | .ok total => .ok ⟨total, total / area⟩

/-- Body of the `try` block of `get_price_per_sqft` (app.py lines 52-60):
same vector construction, then `model.predict([x])[0] / area`. -/
def pricePipeline (model : Model) (columns : List String) (location : String)
    (area bhk bath : ℚ) : Except PredictErr ℚ :=
  match buildFeatureVector columns area bath bhk location with
  | .error e => .error (.build e)
  | .ok x =>
    match model x with
    | .error msg => .error (.predict msg)
    | .ok p => .ok (p / area)

/-- `get_price_per_sqft` (app.py lines 51-63): the whole body is wrapped
in `try ... except Exception: return 0`. -/
def get_price_per_sqft (model : Model) (columns : List String) (location : String)
    (area bhk bath : ℚ) : ℚ :=
  match pricePipeline model columns location area bhk bath with
  | .ok q => q
  | .error _ => 0

/-- A Python value reaching `format_price`: a number or a string. -/
inductive PyVal where
  | num (q : ℚ)
  | str (s : String)

/-- Value of a decimal digit list, most significant first. -/
def natOfDigits (l : List Char) : Nat := l.foldl (fun a c => 10 * a + (c.toNat - 48)) 0

/-- Modelled from the Python builtin `float(...)` applied to a string
(an external primitive, not repository code): an optional sign followed
by decimal digits with an optional fractional part parses to that
rational; anything else (such as "abc") raises `ValueError`, here
`none`. -/
def parseFloatQ (s : String) : Option ℚ :=
  let cs := s.toList
  let p : ℚ × List Char :=
    match cs with
    | '-' :: t => (-1, t)
    | '+' :: t => (1, t)
    | _ => (1, cs)
  let intDigits := p.2.takeWhile Char.isDigit
  let rest := p.2.dropWhile Char.isDigit
  match rest with
  | [] => if intDigits.isEmpty then none else some (p.1 * natOfDigits intDigits)
  | '.' :: frac =>
    if frac.all Char.isDigit && !(intDigits.isEmpty && frac.isEmpty) then
      some (p.1 * ((natOfDigits intDigits : ℚ) + (natOfDigits frac : ℚ) / 10 ^ frac.length))
    else none
  | _ => none

/-- `float(price)` at app.py line 67 on either kind of value. -/
def pyFloat : PyVal → Option ℚ
  | .num q => some q
  | .str s => parseFloatQ s

def digitChar (d : Nat) : Char := Char.ofNat (48 + d)

/-- Decimal digit characters of `n`, least significant first; the fuel
argument bounds the recursion and `n + 1` always suffices. -/
def natDigitsAux (n : Nat) : Nat → List Char
  | 0 => []
  | fuel + 1 => if n = 0 then [] else digitChar (n % 10) :: natDigitsAux (n / 10) fuel

def revDigits (n : Nat) : List Char := natDigitsAux n (n + 1)

/-- Insert a comma after every three digits, working from the least
significant end. -/
def group3 : List Char → List Char
  | a :: b :: c :: d :: rest => a :: b :: c :: ',' :: group3 (d :: rest)
  | l => l

/-- Decimal rendering of `n` with thousands separators. -/
def groupedIntString (n : Nat) : String :=
  let ds := if n = 0 then ['0'] else revDigits n
  String.mk (group3 ds).reverse

/-- The Python format spec `,.2f` (an external primitive): thousands
separators and exactly two decimal places. -/
def formatFixed2 (q : ℚ) : String :=
  let cents : Nat := (Int.floor (|q| * 100 + 1 / 2)).toNat
  let sgn := if q < 0 then "-" else ""
  let ip := cents / 100
  let fp := cents % 100
  sgn ++ groupedIntString ip ++ "." ++ (if fp < 10 then "0" else "") ++ toString fp

/-- `format_price` (app.py lines 65-70): coerce to float and format as
currency; on `ValueError` / `TypeError` return the zero string. -/
def format_price (v : PyVal) : String :=
  match pyFloat v with
  | some q => "₹" ++ formatFixed2 q
  | none => "₹0.00"

/-- `annual_growth_rate = 0.07` (app.py line 264). -/
def annual_growth_rate : ℚ := 7 / 100

/-- One row of the ROI block: horizon, rounded projected price, percent
gain as displayed at app.py lines 276/284/292. -/
structure ProjectedValue where
  yearsAhead : Nat
  projectedPrice : ℚ
  percentGain : ℚ
deriving DecidableEq, Repr

/-- `round(predicted_price * ((1 + annual_growth_rate) ** h), 2)`
(app.py lines 266-268). -/
def roiValue (price : ℚ) (years : Nat) : ℚ :=
  round2 (price * (1 + annual_growth_rate) ^ years)

/-- `(roi_h / predicted_price - 1) * 100` (app.py lines 276/284/292). -/
def percentGainOf (price roi : ℚ) : ℚ := (roi / price - 1) * 100

/-- The ROI Analysis block, app.py lines 262-294: the three fixed
horizons 5, 10 and 15 years. -/
def roiAnalysis (price : ℚ) : List ProjectedValue :=
  [⟨5, roiValue price 5, percentGainOf price (roiValue price 5)⟩,
   ⟨10, roiValue price 10, percentGainOf price (roiValue price 10)⟩,
   ⟨15, roiValue price 15, percentGainOf price (roiValue price 15)⟩]

/-- Modelled from the spec (section 4.2): `projectValue(totalPrice,
annualGrowthRate, horizons)` maps each horizon to the rounded compound
value and its percent gain; stated separately from `roiAnalysis` so the
code block can be compared against the spec wording. -/
def projectValue (totalPrice annualGrowthRate : ℚ) (horizons : List Nat) :
    List ProjectedValue :=
  horizons.map fun h =>
    let p := round2 (totalPrice * (1 + annualGrowthRate) ^ h)
    ⟨h, p, (p / totalPrice - 1) * 100⟩

/-! ### Environmental analysis generator

`np.random` is an external library, not repository code.  The spec
(sections 4.4 and 9) makes only the seed derivation, the order of draws
and the output ranges contractual, explicitly excusing exact numeric
reproduction of the host generator.  It is modelled here as a seeded
deterministic generator in the style of MT19937 (the algorithm numpy
documents): `init_genrand` seeding, simultaneous twist (which agrees
with the in-place twist on the first 227 outputs of a block; the page
draws four words per seeding), the standard tempering, one word per
bounded integer draw taken by remainder, and the 53-bit two-word uniform
double.  All operations are on `Nat` reduced modulo `2 ^ 32`. -/

def UINT32 : Nat := 4294967296

/-- Words 1 to 623 of the seeded state:
`key[i] = 1812433253 * (key[i-1] xor (key[i-1] >>> 30)) + i` mod `2^32`. -/
def mtInitAux (prev i : Nat) : Nat → List Nat
  | 0 => []
  | fuel + 1 =>
    let w := (1812433253 * (prev ^^^ (prev >>> 30)) + i) % UINT32
    w :: mtInitAux w (i + 1) fuel

/-- The 624-word state obtained from an integer seed. -/
def mtInitState (seed : Nat) : List Nat :=
  seed % UINT32 :: mtInitAux (seed % UINT32) 1 623

/-- The MT19937 tempering transform. -/
def temper (x : Nat) : Nat :=
  let a := x ^^^ (x >>> 11)
  let b := a ^^^ ((a <<< 7) &&& 0x9D2C5680)
  let c := b ^^^ ((b <<< 15) &&& 0xEFC60000)
  (c ^^^ (c >>> 18)) % UINT32

/-- One twisted word of a state block. -/
def twistVal (l : List Nat) (i : Nat) : Nat :=
  let y := (l.getD i 0 &&& 0x80000000) ||| (l.getD ((i + 1) % 624) 0 &&& 0x7FFFFFFF)
  ((l.getD ((i + 397) % 624) 0) ^^^ (y >>> 1) ^^^
    (if y % 2 = 1 then 0x9908B0DF else 0)) % UINT32

/-- A whole twisted block. -/
def twistSim (l : List Nat) : List Nat := (List.range 624).map (twistVal l)

/-- The state block from which outputs `624 * k` to `624 * k + 623` are
drawn (seeding sets the position past the end, so the first output
already twists). -/
def mtState (seed : Nat) : Nat → List Nat
  | 0 => mtInitState seed
  | k + 1 => twistSim (mtState seed k)

/-- Output word `n` of the generator seeded with `seed`. -/
def mtWord (seed n : Nat) : Nat := temper (twistVal (mtState seed (n / 624)) (n % 624))

/-- Global `np.random` state: the active seed and the number of words
already drawn since seeding. -/
structure RngState where
  seed : Nat
  idx : Nat
deriving DecidableEq, Repr

/-- `np.random.seed(s)` (app.py line 299): resets the stream, discarding
whatever state was active before. -/
def npSeed (s : Nat) : RngState := ⟨s % UINT32, 0⟩

/-- Draw one 32-bit word and advance the stream. -/
def nextWord (g : RngState) : Nat × RngState := (mtWord g.seed g.idx, ⟨g.seed, g.idx + 1⟩)

/-- `np.random.randint(lo, hi)` (app.py lines 303 and 313), modelled as
one word reduced into `[lo, hi)` by remainder. -/
def randint (lo hi : Nat) (g : RngState) : Nat × RngState :=
  let r := nextWord g
  (lo + r.1 % (hi - lo), r.2)

/-- numpy `random_sample`: two words make a 53-bit numerator, giving a
rational in `[0, 1)`. -/
def randomSample (g : RngState) : ℚ × RngState :=
  let r1 := nextWord g
  let r2 := nextWord r1.2
  ((((r1.1 >>> 5) * 67108864 + (r2.1 >>> 6) : Nat) : ℚ) / 9007199254740992, r2.2)

/-- `np.random.uniform(lo, hi)` (app.py line 323). -/
def uniform (lo hi : ℚ) (g : RngState) : ℚ × RngState :=
  let r := randomSample g
  (lo + (hi - lo) * r.1, r.2)

/-- The three synthetic metrics of the Environmental Analysis block. -/
structure EnvProfile where
  aqi : Nat
  noise : Nat
  green : ℚ
deriving DecidableEq, Repr

/-- `sum(ord(c) for c in location)` (app.py line 298). -/
def sumCodes (location : String) : Nat := (location.toList.map Char.toNat).sum

/-- The Environmental Analysis block, app.py lines 296-331: reseed the
global generator from the location, then draw the air-quality index, the
noise level and the rounded green-space percentage, in that order.  The
incoming generator state is taken as an argument to record that
`np.random.seed` overwrites it. -/
def environmentalAnalysis (_g0 : RngState) (location : String) : EnvProfile × RngState :=
  let g1 := npSeed (sumCodes location)
  let a := randint 50 200 g1
  let n := randint 30 90 a.2
  let u := uniform 5 30 n.2
  (⟨a.1, n.1, round2 u.1⟩, u.2)

/-! ### Artifact loading -/

/-- Outcome of fetching and deserializing one artifact file: the file
system, `pickle.load` and `json.load` are external, so the possible
outcomes are taken as an input of the model. -/
inductive Artifact (α : Type) where
  | missing
  | unreadable
  | malformed
  | good (a : α)

/-- The two artifacts `load_model` reads (app.py lines 33-40): the
pickled model and the parsed columns JSON object, the latter modelled as
a string-keyed object whose values are string lists. -/
structure ModelFiles where
  modelArtifact : Artifact Model
  columnsArtifact : Artifact (List (String × List String))

/-- The failure cases of `load_model` (any raised exception reaches the
handler at app.py lines 44-48; the spec calls them all `LoadError`). -/
inductive LoadError where
  | modelFile
  | columnsFile
  | dataColumnsKey
deriving DecidableEq, Repr

/-- Python `obj["data_columns"]` on the parsed JSON object: `KeyError`
when absent. -/
def lookupKey (key : String) : List (String × List String) → Option (List String)
  | [] => none
  | kv :: rest => if kv.1 = key then some kv.2 else lookupKey key rest

/-- `load_model` (app.py lines 31-42): open and unpickle the model, open
and parse the columns file, project out `data_columns`; the first
failing step aborts the whole load. -/
def load_model (mf : ModelFiles) : Except LoadError (Model × List String) :=
  match mf.modelArtifact with
  | .good m =>
    match mf.columnsArtifact with
    | .good obj =>
      match lookupKey "data_columns" obj with
      | some cols => .ok (m, cols)
      | none => .error .dataColumnsKey
    | _ => .error .columnsFile
  | _ => .error .modelFile

/-- Whether `load_model` succeeds. -/
def loadSucceeds (mf : ModelFiles) : Bool :=
  match load_model mf with
  | .ok _ => true
  | .error _ => false

/-- Process state after the module-level load: serving with a model and
columns, or halted by `st.stop()`. -/
inductive AppState where
  | serving (model : Model) (columns : List String)
  | halted

def servesRequests : AppState → Bool
  | .serving _ _ => true
  | .halted => false

/-- Startup, app.py lines 44-48: on success the page serves requests; on
any exception one error is reported and `st.stop()` halts the script.
The second component is the list of reported errors. -/
def startup (mf : ModelFiles) : AppState × List String :=
  match load_model mf with
  | .ok mc => (.serving mc.1 mc.2, [])
  | .error _ => (.halted, ["Error loading model"])

def isGoodArtifact {α : Type} : Artifact α → Bool
  | .good _ => true
  | _ => false

/-- Whether the columns artifact parsed and carries `data_columns`. -/
def hasDataColumns : Artifact (List (String × List String)) → Bool
  | .good obj => (lookupKey "data_columns" obj).isSome
  | _ => false

/-! ### Helper lemmas -/

deriving instance DecidableEq for Except

theorem ok_bind {ε α β : Type} (a : α) (f : α → Except ε β) :
    (Except.ok a >>= f) = f a := rfl

theorem error_bind {ε α β : Type} (e : ε) (f : α → Except ε β) :
    ((Except.error e : Except ε α) >>= f) = .error e := rfl

theorem indexOf_lt_length_of_mem {l : List String} {a : String} (h : a ∈ l) :
    l.indexOf a < l.length := by
  induction l with
  | nil => cases h
  | cons b t ih =>
    rw [List.indexOf_cons]
    by_cases hb : b == a
    · simp [hb]
    · rcases List.mem_cons.mp h with h1 | h1
      · exact absurd (beq_iff_eq.mpr h1.symm) hb
      · simpa [hb] using ih h1

theorem sum_set_one_replicate : ∀ (k j : Nat), j < k →
    ((List.replicate k (0 : ℚ)).set j 1).sum = 1 := by
  intro k
  induction k with
  | zero => intro j hj; exact absurd hj (Nat.not_lt_zero j)
  | succ k ih =>
    intro j hj
    cases j with
    | zero => simp [List.replicate_succ, List.sum_replicate]
    | succ j => simp [List.replicate_succ, List.set_cons_succ, ih j (by omega)]

/-- Explicit form of the feature vector when the location sits in the
one-hot region (first occurrence at index at least 3). -/
theorem buildFeatureVector_eq (columns : List String) (area bathrooms bedrooms : ℚ)
    (location : String) (hmem : location ∈ columns)
    (hidx : 3 ≤ columns.indexOf location) :
    buildFeatureVector columns area bathrooms bedrooms location =
      .ok (area :: bathrooms :: bedrooms ::
        (List.replicate (columns.length - 3) 0).set (columns.indexOf location - 3) 1) := by
  have hlt := indexOf_lt_length_of_mem hmem
  obtain ⟨k, hk⟩ : ∃ k, columns.length = k + 3 := ⟨columns.length - 3, by omega⟩
  obtain ⟨j, hj⟩ : ∃ j, columns.indexOf location = j + 3 :=
    ⟨columns.indexOf location - 3, by omega⟩
  have hrep : List.replicate (k + 3) (0 : ℚ) = 0 :: 0 :: 0 :: List.replicate k 0 := by
    simp [List.replicate_succ]
  have hjk : j < k := by omega
  have h1 : setSlot (0 :: 0 :: 0 :: List.replicate k (0 : ℚ)) 0 area =
      .ok (area :: 0 :: 0 :: List.replicate k 0) := by
    simp [setSlot]
  have h2 : setSlot (area :: 0 :: 0 :: List.replicate k (0 : ℚ)) 1 bathrooms =
      .ok (area :: bathrooms :: 0 :: List.replicate k 0) := by
    simp [setSlot]
  have h3 : setSlot (area :: bathrooms :: 0 :: List.replicate k (0 : ℚ)) 2 bedrooms =
      .ok (area :: bathrooms :: bedrooms :: List.replicate k 0) := by
    simp [setSlot]
  have h4 : indexOfCol columns location = .ok (j + 3) := by
    simp [indexOfCol, hmem, hj]
  have h5 : setSlot (area :: bathrooms :: bedrooms :: List.replicate k (0 : ℚ)) (j + 3) 1 =
      .ok (area :: bathrooms :: bedrooms :: (List.replicate k (0 : ℚ)).set j 1) := by
    simp [setSlot, hjk]
  simp only [buildFeatureVector, hk, hj, hrep, h1, ok_bind, h2, h3, h4, h5]
  simp

/-! ### C1: shape and content of the feature vector -/

/-- C1 (corrected): the claim quantifies over every schema with the
location anywhere in it, but when the location is one of the first three
columns the one-hot write lands in a fixed slot.  For the schema
`[loc x, bath, bhk, loc a]` and location `loc x` (a member, at index 0)
the handler produces `[1, 2, 3, 0]`: slot 0 is 1, not the area 1000, and
the one-hot region past index 2 sums to 0, not 1. -/
theorem c1_counterexample :
    buildFeatureVector ["loc x", "bath", "bhk", "loc a"] 1000 2 3 "loc x" =
      .ok [1, 2, 3, 0] ∧
    ¬ (([(1 : ℚ), 2, 3, 0].drop 3).sum = 1) ∧
    ¬ (([(1 : ℚ), 2, 3, 0])[0]? = some 1000) :=
  ⟨by decide, by norm_num, by decide⟩

/-- C1 (amended): for every schema and valid input whose location occurs
in the one-hot region (first occurrence at index at least 3), the built
vector has the schema length, carries area, bathrooms and bedrooms in
slots 0 to 2, a 1 at the location index, and the one-hot region sums to
exactly 1. -/
theorem c1_feature_vector (columns : List String) (area bathrooms bedrooms : ℚ)
    (location : String) (hmem : location ∈ columns)
    (hidx : 3 ≤ columns.indexOf location) :
    ∃ v, buildFeatureVector columns area bathrooms bedrooms location = .ok v ∧
      v.length = columns.length ∧
      v[0]? = some area ∧ v[1]? = some bathrooms ∧ v[2]? = some bedrooms ∧
      v[columns.indexOf location]? = some 1 ∧
      (v.drop 3).sum = 1 := by
  have hlt := indexOf_lt_length_of_mem hmem
  refine ⟨_, buildFeatureVector_eq columns area bathrooms bedrooms location hmem hidx,
    ?_, ?_, ?_, ?_, ?_, ?_⟩
  · simp only [List.length_cons, List.length_set, List.length_replicate]
    omega
  · simp
  · simp
  · simp
  · obtain ⟨j, hj⟩ : ∃ j, columns.indexOf location = j + 3 :=
      ⟨columns.indexOf location - 3, by omega⟩
    rw [hj]
    simp only [List.getElem?_cons_succ, Nat.add_sub_cancel]
    exact List.getElem?_set_eq_of_lt 1 (by simp; omega)
  · simp only [List.drop_succ_cons, List.drop_zero]
    exact sum_set_one_replicate (columns.length - 3) (columns.indexOf location - 3)
      (by omega)

/-- Witness for C1: the end-to-end scenario of the claim, schema
`[area, bath, bhk, loc a, loc b]` with query (1000, 2, 3, loc b) giving
the vector `[1000, 2, 3, 0, 1]`. -/
theorem c1_witness :
    "loc b" ∈ ["area", "bath", "bhk", "loc a", "loc b"] ∧
    3 ≤ (["area", "bath", "bhk", "loc a", "loc b"] : List String).indexOf "loc b" ∧
    buildFeatureVector ["area", "bath", "bhk", "loc a", "loc b"] 1000 2 3 "loc b" =
      .ok [1000, 2, 3, 0, 1] ∧
    (∃ v, buildFeatureVector ["area", "bath", "bhk", "loc a", "loc b"] 1000 2 3 "loc b" =
        .ok v ∧
      v.length = 5 ∧
      v[0]? = some 1000 ∧ v[1]? = some 2 ∧ v[2]? = some 3 ∧
      v[(["area", "bath", "bhk", "loc a", "loc b"] : List String).indexOf "loc b"]? = some 1 ∧
      (v.drop 3).sum = 1) := by
  refine ⟨by decide, by decide, by decide, ?_⟩
  exact c1_feature_vector ["area", "bath", "bhk", "loc a", "loc b"] 1000 2 3 "loc b"
    (by decide) (by decide)

/-! ### C2: unknown locations are rejected -/

/-- C2: with the schema shape of section 3 (at least the three fixed
numeric slots), a location that is not a member of the column list makes
the construction fail with the unknown-location error; no vector is
returned. -/
theorem c2_unknown_location (columns : List String) (area bathrooms bedrooms : ℚ)
    (location : String) (hlen : 3 ≤ columns.length) (hloc : location ∉ columns) :
    buildFeatureVector columns area bathrooms bedrooms location =
      .error .unknownLocation := by
  obtain ⟨k, hk⟩ : ∃ k, columns.length = k + 3 := ⟨columns.length - 3, by omega⟩
  have hrep : List.replicate columns.length (0 : ℚ) = 0 :: 0 :: 0 :: List.replicate k 0 := by
    rw [hk]; simp [List.replicate_succ]
  have h1 : setSlot (0 :: 0 :: 0 :: List.replicate k (0 : ℚ)) 0 area =
      .ok (area :: 0 :: 0 :: List.replicate k 0) := by
    simp [setSlot]
  have h2 : setSlot (area :: 0 :: 0 :: List.replicate k (0 : ℚ)) 1 bathrooms =
      .ok (area :: bathrooms :: 0 :: List.replicate k 0) := by
    simp [setSlot]
  have h3 : setSlot (area :: bathrooms :: 0 :: List.replicate k (0 : ℚ)) 2 bedrooms =
      .ok (area :: bathrooms :: bedrooms :: List.replicate k 0) := by
    simp [setSlot]
  have h4 : indexOfCol columns location = .error .unknownLocation := by
    simp [indexOfCol, hloc]
  simp only [buildFeatureVector, hrep, h1, ok_bind, h2, h3, h4, error_bind]

/-- Witness for C2: the location "nowhere" is rejected on a four-column
schema. -/
theorem c2_witness :
    3 ≤ (["area", "bath", "bhk", "loc a"] : List String).length ∧
    "nowhere" ∉ ["area", "bath", "bhk", "loc a"] ∧
    buildFeatureVector ["area", "bath", "bhk", "loc a"] 1000 2 3 "nowhere" =
      .error .unknownLocation :=
  ⟨by decide, by decide,
    c2_unknown_location ["area", "bath", "bhk", "loc a"] 1000 2 3 "nowhere"
      (by decide) (by decide)⟩

/-! ### C3: ROI projection -/

/-- C3: the ROI block computes, for each horizon h in {5, 10, 15} and
growth rate 0.07, the projected price round2(P (1.07)^h) and the percent
gain (projected/P - 1) 100 — exactly the spec-side `projectValue` with
those reference constants — and on P = 1,000,000 each projected value
agrees with (1.07)^h times P to within 1e-6 after rounding to two
decimals. -/
theorem c3_roi_projection :
    (∀ price : ℚ, roiAnalysis price = projectValue price annual_growth_rate [5, 10, 15]) ∧
    |roiValue 1000000 5 - round2 ((107 / 100) ^ 5 * 1000000)| ≤ 1 / 1000000 ∧
    |roiValue 1000000 10 - round2 ((107 / 100) ^ 10 * 1000000)| ≤ 1 / 1000000 ∧
    |roiValue 1000000 15 - round2 ((107 / 100) ^ 15 * 1000000)| ≤ 1 / 1000000 := by
  have harg : ∀ h : Nat, ((1000000 : ℚ) * (1 + annual_growth_rate) ^ h) =
      (107 / 100) ^ h * 1000000 := by
    intro h
    rw [annual_growth_rate]
    ring_nf
  have hval : ∀ h : Nat, roiValue 1000000 h = round2 ((107 / 100) ^ h * 1000000) := by
    intro h
    rw [roiValue, harg h]
  refine ⟨fun _ => rfl, ?_, ?_, ?_⟩ <;> rw [hval] <;> simp

/-! ### C5: determinism -/

/-- C5: prediction and environmental profiling are deterministic.  The
prediction path reads no generator state at all; the environmental
profile reseeds from the location, so its value does not depend on the
incoming generator state, and in particular running the block twice in a
row on "civil lines" returns bit-identical profiles. -/
theorem c5_determinism :
    (∀ (model : Model) (columns : List String) (area bathrooms bedrooms : ℚ)
        (location : String),
      predictPrice model columns area bathrooms bedrooms location =
        predictPrice model columns area bathrooms bedrooms location) ∧
    (∀ (g1 g2 : RngState) (location : String),
      (environmentalAnalysis g1 location).1 = (environmentalAnalysis g2 location).1) ∧
    (∀ g : RngState,
      (environmentalAnalysis (environmentalAnalysis g "civil lines").2 "civil lines").1 =
        (environmentalAnalysis g "civil lines").1) :=
  ⟨fun _ _ _ _ _ _ => rfl, fun _ _ _ => rfl, fun _ => rfl⟩

/-! ### C7: price per area -/

/-- C7: with positive area and a successful build and prediction, the
handler returns the model output as the total price together with
total/area as the price per square foot, and that quotient times the
area recovers the total (the division is well defined because the
precondition excludes non-positive area). -/
theorem c7_price_per_area (model : Model) (columns : List String)
    (area bathrooms bedrooms : ℚ) (location : String) (x : List ℚ) (total : ℚ)
    (harea : 0 < area)
    (hx : buildFeatureVector columns area bathrooms bedrooms location = .ok x)
    (hm : model x = .ok total) :
    predictPrice model columns area bathrooms bedrooms location =
      .ok ⟨total, total / area⟩ ∧
    total / area * area = total := by
  constructor
  · simp [predictPrice, hx, hm]
  · exact div_mul_cancel₀ total (ne_of_gt harea)

/-- Witness for C7 on the five-column schema with a summing model. -/
theorem c7_witness :
    (0 : ℚ) < 1000 ∧
    buildFeatureVector ["area", "bath", "bhk", "loc a", "loc b"] 1000 2 3 "loc b" =
      .ok [1000, 2, 3, 0, 1] ∧
    predictPrice (fun v => .ok v.sum) ["area", "bath", "bhk", "loc a", "loc b"]
      1000 2 3 "loc b" = .ok ⟨1006, 1006 / 1000⟩ ∧
    (1006 : ℚ) / 1000 * 1000 = 1006 := by
  have hb : buildFeatureVector ["area", "bath", "bhk", "loc a", "loc b"] 1000 2 3 "loc b" =
      .ok [1000, 2, 3, 0, 1] := by decide
  have hm : (fun v => Except.ok v.sum : Model) [1000, 2, 3, 0, 1] = .ok 1006 := by
    show Except.ok (([1000, 2, 3, 0, 1] : List ℚ).sum) = .ok 1006
    norm_num
  have h := c7_price_per_area (fun v => .ok v.sum) ["area", "bath", "bhk", "loc a", "loc b"]
    1000 2 3 "loc b" [1000, 2, 3, 0, 1] 1006 (by norm_num) hb hm
  exact ⟨by norm_num, hb, h.1, h.2⟩

/-! ### C9: get_price_per_sqft swallows failures -/

/-- C9: `get_price_per_sqft` never propagates a failure: it returns 0
whenever the wrapped pipeline fails, and the pipeline value otherwise
(so it is total on every input, including locations absent from the
column list). -/
theorem c9_price_per_sqft_total (model : Model) (columns : List String)
    (location : String) (area bhk bath : ℚ) :
    (∀ e, pricePipeline model columns location area bhk bath = .error e →
      get_price_per_sqft model columns location area bhk bath = 0) ∧
    (∀ q, pricePipeline model columns location area bhk bath = .ok q →
      get_price_per_sqft model columns location area bhk bath = q) := by
  constructor <;> intro z h <;> simp [get_price_per_sqft, h]

/-- Witness for C9: an unknown location makes the pipeline fail and the
function return 0. -/
theorem c9_witness :
    pricePipeline (fun v => .ok v.sum) ["area", "bath", "bhk"] "nowhere" 1000 2 2 =
      .error (.build .unknownLocation) ∧
    get_price_per_sqft (fun v => .ok v.sum) ["area", "bath", "bhk"] "nowhere" 1000 2 2 = 0 := by
  have hp : pricePipeline (fun v => .ok v.sum : Model) ["area", "bath", "bhk"]
      "nowhere" 1000 2 2 = .error (.build .unknownLocation) := by decide
  exact ⟨hp, (c9_price_per_sqft_total _ _ _ _ _ _).1 _ hp⟩

/-! ### C10: the profile depends only on the code-point sum -/

/-- C10: the environmental profile depends on the location string only
through the sum of its character code points. -/
theorem c10_seed_extensionality (g1 g2 : RngState) (l1 l2 : String)
    (h : sumCodes l1 = sumCodes l2) :
    (environmentalAnalysis g1 l1).1 = (environmentalAnalysis g2 l2).1 := by
  unfold environmentalAnalysis
  rw [h]

/-- Witness for C10: "raja park" and its character permutation
"park raja" share a code-point sum and hence a profile. -/
theorem c10_witness :
    sumCodes "raja park" = sumCodes "park raja" ∧
    (environmentalAnalysis (npSeed 0) "raja park").1 =
      (environmentalAnalysis (npSeed 7) "park raja").1 :=
  ⟨by decide, c10_seed_extensionality _ _ _ _ (by decide)⟩

/-! ### C4: the environmental profile -/

theorem temper_lt (x : Nat) : temper x < UINT32 :=
  Nat.mod_lt _ (by norm_num [UINT32])

theorem mtWord_lt (seed n : Nat) : mtWord seed n < UINT32 := temper_lt _

/-- A 53-bit sample lies in `[0, 1)`. -/
theorem randomSample_bounds (g : RngState) :
    0 ≤ (randomSample g).1 ∧ (randomSample g).1 < 1 := by
  have hre : (randomSample g).1 =
      (((mtWord g.seed g.idx >>> 5) * 67108864 + (mtWord g.seed (g.idx + 1) >>> 6) : ℕ) : ℚ) /
        9007199254740992 := rfl
  have h1 : mtWord g.seed g.idx < UINT32 := mtWord_lt _ _
  have h2 : mtWord g.seed (g.idx + 1) < UINT32 := mtWord_lt _ _
  have e1 : mtWord g.seed g.idx >>> 5 = mtWord g.seed g.idx / 32 := by
    rw [Nat.shiftRight_eq_div_pow]
  have e2 : mtWord g.seed (g.idx + 1) >>> 6 = mtWord g.seed (g.idx + 1) / 64 := by
    rw [Nat.shiftRight_eq_div_pow]
  have b1 : mtWord g.seed g.idx / 32 < 134217728 := by
    rw [Nat.div_lt_iff_lt_mul (by norm_num)]
    have : UINT32 = 134217728 * 32 := by norm_num [UINT32]
    omega
  have b2 : mtWord g.seed (g.idx + 1) / 64 < 67108864 := by
    rw [Nat.div_lt_iff_lt_mul (by norm_num)]
    have : UINT32 = 67108864 * 64 := by norm_num [UINT32]
    omega
  have hK : (mtWord g.seed g.idx >>> 5) * 67108864 + (mtWord g.seed (g.idx + 1) >>> 6) <
      9007199254740992 := by
    rw [e1, e2]; omega
  rw [hre]
  constructor
  · positivity
  · rw [div_lt_one (by norm_num)]
    exact_mod_cast hK

/-- The uniform draw on `[5, 30)` stays in that interval. -/
theorem uniform_5_30_bounds (g : RngState) :
    5 ≤ (uniform 5 30 g).1 ∧ (uniform 5 30 g).1 < 30 := by
  have h := randomSample_bounds g
  have hu : (uniform 5 30 g).1 = 5 + (30 - 5) * (randomSample g).1 := rfl
  rw [hu]
  constructor <;> nlinarith [h.1, h.2]

/-- Rounding a value of `[5, 30)` to two decimals lands in `[5, 30]`
(the upper end is attainable: a draw in `[29.995, 30)` rounds up). -/
theorem round2_bounds {u : ℚ} (h5 : 5 ≤ u) (h30 : u < 30) :
    5 ≤ round2 u ∧ round2 u ≤ 30 := by
  have hlo : (500 : ℤ) ≤ Int.floor (u * 100 + 1 / 2) := by
    rw [Int.le_floor]
    push_cast
    linarith
  have hhi : Int.floor (u * 100 + 1 / 2) ≤ 3000 := by
    rw [Int.floor_le_iff]
    push_cast
    linarith
  unfold round2
  constructor
  · have h : (500 : ℚ) ≤ (Int.floor (u * 100 + 1 / 2) : ℚ) := by exact_mod_cast hlo
    linarith
  · have h : ((Int.floor (u * 100 + 1 / 2) : ℤ) : ℚ) ≤ 3000 := by exact_mod_cast hhi
    linarith

/-- C4 (amended): the block seeds from the code-point sum of the
location and draws, in order, the air-quality index, the noise level and
the green percentage; the integers lie in `[50, 200)` and `[30, 90)` as
claimed, and the rounded green value lies in `[5, 30]` — the rounding
applied after the uniform draw can push it to exactly 30.00, so `[5,30)`
as claimed does not hold (see the counterexample). -/
theorem c4_environmental_profile (g : RngState) (location : String) :
    (environmentalAnalysis g location).1.aqi =
      (randint 50 200 (npSeed (sumCodes location))).1 ∧
    (environmentalAnalysis g location).1.noise =
      (randint 30 90 (randint 50 200 (npSeed (sumCodes location))).2).1 ∧
    (environmentalAnalysis g location).1.green =
      round2 (uniform 5 30 (randint 30 90 (randint 50 200 (npSeed (sumCodes location))).2).2).1 ∧
    50 ≤ (environmentalAnalysis g location).1.aqi ∧
    (environmentalAnalysis g location).1.aqi < 200 ∧
    30 ≤ (environmentalAnalysis g location).1.noise ∧
    (environmentalAnalysis g location).1.noise < 90 ∧
    5 ≤ (environmentalAnalysis g location).1.green ∧
    (environmentalAnalysis g location).1.green ≤ 30 := by
  have haqi : (environmentalAnalysis g location).1.aqi =
      50 + mtWord (sumCodes location % UINT32) 0 % 150 := rfl
  have hnoise : (environmentalAnalysis g location).1.noise =
      30 + mtWord (sumCodes location % UINT32) 1 % 60 := rfl
  have hgreen : (environmentalAnalysis g location).1.green =
      round2 (uniform 5 30 ⟨sumCodes location % UINT32, 2⟩).1 := rfl
  have hb := uniform_5_30_bounds ⟨sumCodes location % UINT32, 2⟩
  have hr := round2_bounds hb.1 hb.2
  refine ⟨rfl, rfl, rfl, ?_, ?_, ?_, ?_, ?_, ?_⟩
  · rw [haqi]; omega
  · rw [haqi]
    have := Nat.mod_lt (mtWord (sumCodes location % UINT32) 0) (show 0 < 150 by norm_num)
    omega
  · rw [hnoise]; omega
  · rw [hnoise]
    have := Nat.mod_lt (mtWord (sumCodes location % UINT32) 1) (show 0 < 60 by norm_num)
    omega
  · rw [hgreen]; exact hr.1
  · rw [hgreen]; exact hr.2

set_option maxRecDepth 100000 in
/-- C4 (counterexample to the claimed green range): for the single-char
location "ȡ" (code point 545) the uniform draw falls in `[29.995, 30)`
and rounding to two decimals returns exactly 30, which is not in
`[5, 30)`. -/
theorem c4_counterexample :
    (environmentalAnalysis (npSeed 0) "ȡ").1.green = 30 ∧
    ¬ (environmentalAnalysis (npSeed 0) "ȡ").1.green < 30 := by
  have hg : (environmentalAnalysis (npSeed 0) "ȡ").1.green =
      round2 (5 + (30 - 5) *
        ((((mtWord 545 2 >>> 5) * 67108864 + (mtWord 545 3 >>> 6) : ℕ) : ℚ) /
          9007199254740992)) := rfl
  have hK : (mtWord 545 2 >>> 5) * 67108864 + (mtWord 545 3 >>> 6) = 9006728962750518 := by
    decide
  have hfl : Int.floor ((5 + (30 - 5) *
      ((9006728962750518 : ℚ) / 9007199254740992)) * 100 + 1 / 2) = 3000 := by
    rw [Int.floor_eq_iff]
    constructor <;> norm_num
  have h30 : (environmentalAnalysis (npSeed 0) "ȡ").1.green = 30 := by
    rw [hg, hK]
    unfold round2
    push_cast
    rw [hfl]
    norm_num
  exact ⟨h30, by rw [h30]; exact lt_irrefl 30⟩

/-! ### C6: currency formatting -/

/-- Evaluation helper for the `,.2f` model once the cent count is
known. -/
theorem formatFixed2_eq {q : ℚ} {c : Nat} (h : Int.floor (|q| * 100 + 1 / 2) = (c : ℤ)) :
    formatFixed2 q = (if q < 0 then "-" else "") ++ groupedIntString (c / 100) ++ "." ++
      (if c % 100 < 10 then "0" else "") ++ toString (c % 100) := by
  simp only [formatFixed2, h, Int.toNat_natCast]

/-- C6 (counterexample): -1 is numeric, so `format_price` renders it as
the non-zero currency string. -/
theorem c6_counterexample :
    format_price (.num (-1)) = "₹-1.00" ∧ "₹-1.00" ≠ "₹0.00" := by
  constructor
  · show "₹" ++ formatFixed2 (-1) = "₹-1.00"
    rw [formatFixed2_eq (show Int.floor (|(-1 : ℚ)| * 100 + 1 / 2) = ((100 : ℕ) : ℤ) by norm_num)]
    rw [if_pos (show (-1 : ℚ) < 0 by norm_num)]
    decide
  · decide

/-- C6 (amended): `format_price` is total; every numeric input is
rendered through the `,.2f` formatter (thousands separators, two
decimals, as the concrete 1,234,567.89 case shows) and every non-numeric
input yields the zero string; in particular `-1` gives the well-formed
string `₹-1.00` (not a zero-valued string) and `"abc"` gives `₹0.00`. -/
theorem c6_format_currency :
    (∀ v : PyVal,
      (∃ q, pyFloat v = some q ∧ format_price v = "₹" ++ formatFixed2 q) ∨
      (pyFloat v = none ∧ format_price v = "₹0.00")) ∧
    format_price (.num (-1)) = "₹-1.00" ∧
    format_price (.str "abc") = "₹0.00" ∧
    format_price (.num 1234567.891) = "₹1,234,567.89" := by
  refine ⟨?_, ?_, by decide, ?_⟩
  · intro v
    cases h : pyFloat v with
    | some q => exact Or.inl ⟨q, rfl, by simp [format_price, h]⟩
    | none => exact Or.inr ⟨rfl, by simp [format_price, h]⟩
  · show "₹" ++ formatFixed2 (-1) = "₹-1.00"
    rw [formatFixed2_eq (show Int.floor (|(-1 : ℚ)| * 100 + 1 / 2) = ((100 : ℕ) : ℤ) by norm_num)]
    rw [if_pos (show (-1 : ℚ) < 0 by norm_num)]
    decide
  · show "₹" ++ formatFixed2 1234567.891 = "₹1,234,567.89"
    rw [formatFixed2_eq (show Int.floor (|(1234567.891 : ℚ)| * 100 + 1 / 2) =
      ((123456789 : ℕ) : ℤ) by rw [abs_of_pos (by norm_num), Int.floor_eq_iff]; constructor <;> norm_num)]
    rw [if_neg (show ¬ (1234567.891 : ℚ) < 0 by norm_num)]
    decide

/-! ### C8: artifact loading -/

/-- C8: `load_model` succeeds exactly when the model artifact is good
and the columns artifact is good and carries the `data_columns` key; on
success it returns the model with the ordered column list; on failure
startup reports exactly one error and halts, and a halted process serves
no request. -/
theorem c8_load_contract (mf : ModelFiles) :
    loadSucceeds mf = (isGoodArtifact mf.modelArtifact && hasDataColumns mf.columnsArtifact) ∧
    (loadSucceeds mf = false → startup mf = (.halted, ["Error loading model"])) ∧
    servesRequests (startup mf).1 = loadSucceeds mf ∧
    (∀ (m : Model) (obj : List (String × List String)) (cols : List String),
      mf.modelArtifact = .good m → mf.columnsArtifact = .good obj →
      lookupKey "data_columns" obj = some cols → load_model mf = .ok (m, cols)) := by
  obtain ⟨ma, ca⟩ := mf
  cases ma with
  | missing =>
    cases ca <;>
      simp [loadSucceeds, load_model, startup, servesRequests, isGoodArtifact, hasDataColumns]
  | unreadable =>
    cases ca <;>
      simp [loadSucceeds, load_model, startup, servesRequests, isGoodArtifact, hasDataColumns]
  | malformed =>
    cases ca <;>
      simp [loadSucceeds, load_model, startup, servesRequests, isGoodArtifact, hasDataColumns]
  | good m =>
    cases ca with
    | missing =>
      simp [loadSucceeds, load_model, startup, servesRequests, isGoodArtifact, hasDataColumns]
    | unreadable =>
      simp [loadSucceeds, load_model, startup, servesRequests, isGoodArtifact, hasDataColumns]
    | malformed =>
      simp [loadSucceeds, load_model, startup, servesRequests, isGoodArtifact, hasDataColumns]
    | good obj =>
      cases hl : lookupKey "data_columns" obj with
      | none =>
        simp only [loadSucceeds, load_model, startup, servesRequests, isGoodArtifact,
          hasDataColumns, hl]
        refine ⟨by simp, by simp, by simp, ?_⟩
        intro m1 obj1 cols h1 h2 h3
        cases h1
        cases h2
        rw [hl] at h3
        cases h3
      | some cols =>
        simp only [loadSucceeds, load_model, startup, servesRequests, isGoodArtifact,
          hasDataColumns, hl]
        refine ⟨by simp, by simp, by simp, ?_⟩
        intro m1 obj1 cols1 h1 h2 h3
        cases h1
        cases h2
        rw [hl] at h3
        cases h3
        rfl

/-- Witness for C8: a good pair of artifacts loads to the column list of
the JSON, and a missing model halts startup with one report. -/
theorem c8_witness :
    load_model ⟨.good (fun _ => .ok 0), .good [("data_columns", ["area", "bath"])]⟩ =
      .ok (fun _ => .ok 0, ["area", "bath"]) ∧
    loadSucceeds ⟨.missing, .missing⟩ = false ∧
    startup ⟨.missing, .missing⟩ = (.halted, ["Error loading model"]) ∧
    servesRequests (startup ⟨.missing, .missing⟩).1 = false := by
  refine ⟨?_, rfl, ?_, rfl⟩
  · exact (c8_load_contract _).2.2.2 _ _ _ rfl rfl rfl
  · exact (c8_load_contract _).2.1 rfl

end PropertyPulse
